import Mathlib

/-!
Verification of the ChillMCP dual-gauge state machine (`src/main.py`).

The embedding models the shared mutable state `ChillMCPState` and its
operations `_apply_stress_growth`, `_apply_boss_cooldown`,
`_maybe_raise_boss_alert` and `perform_break`.  The monotonic clock is
modelled as a rational-valued time parameter; Python's float floor
division `int(elapsed // interval)` becomes `⌊elapsed / interval⌋` on ℚ.
Randomness (`random.randint`) is modelled by passing the drawn values
(`relief`, `roll`) as explicit parameters, constrained by hypotheses to
the ranges the source draws from.
-/

/-- Behavioral configuration for a single chill tool (dataclass `ToolProfile`). -/
structure ToolProfile where
  summary : String
  flavor : String
  min_relief : ℤ
  max_relief : ℤ
  deriving Repr, DecidableEq

/-- The `take_a_break` entry of `TOOL_PROFILES` (relief range 12–28). -/
def take_a_break : ToolProfile :=
  { summary := "Quick breathing routine and shoulder stretch to reset focus."
    flavor := "Taking a mindful pause with deep breathing and a stretch."
    min_relief := 12
    max_relief := 28 }

/-- Shared mutable state for the ChillMCP tools (dataclass `ChillMCPState`). -/
structure ChillMCPState where
  boss_alertness : ℤ
  boss_alertness_cooldown : ℤ
  stress_level : ℤ := 60
  boss_alert_level : ℤ := 0
  last_stress_update : ℚ
  last_boss_cooldown_check : ℚ
  stress_growth_interval : ℤ := 60
  max_stress : ℤ := 100
  max_boss_alert : ℤ := 5
  boss_alert_delay : ℤ := 20
  deriving Repr, DecidableEq

/-- State as constructed at server startup: dataclass defaults, with both
timestamp anchors set to the construction time `t` (`time.monotonic()`). -/
def initState (boss_alertness boss_alertness_cooldown : ℤ) (t : ℚ) : ChillMCPState :=
  { boss_alertness := boss_alertness
    boss_alertness_cooldown := boss_alertness_cooldown
    last_stress_update := t
    last_boss_cooldown_check := t }

/-- Embeds `ChillMCPState._apply_stress_growth` (src/main.py lines 135–145):
increase stress based on elapsed time since the last break.  Returns the
updated state together with the returned tick count. -/
def _apply_stress_growth (s : ChillMCPState) (current_time : ℚ) : ChillMCPState × ℤ :=
  let elapsed := current_time - s.last_stress_update
  let ticks : ℤ := ⌊elapsed / (s.stress_growth_interval : ℚ)⌋
  if ticks ≤ 0 then (s, 0)
  else
    ({ s with
        stress_level := min s.max_stress (s.stress_level + ticks)
        last_stress_update :=
          s.last_stress_update + (ticks : ℚ) * (s.stress_growth_interval : ℚ) },
     ticks)

/-- Embeds `ChillMCPState._apply_boss_cooldown` (src/main.py lines 147–165):
lower boss alert level if enough cooldown time has passed.  Returns the
updated state together with the returned actual drop. -/
def _apply_boss_cooldown (s : ChillMCPState) (current_time : ℚ) : ChillMCPState × ℤ :=
  let elapsed := current_time - s.last_boss_cooldown_check
  let steps : ℤ := ⌊elapsed / (s.boss_alertness_cooldown : ℚ)⌋
  if s.boss_alert_level = 0 then
    ({ s with last_boss_cooldown_check := current_time }, 0)
  else if steps ≤ 0 then (s, 0)
  else
    let previous_level := s.boss_alert_level
    let new_level := max 0 (previous_level - steps)
    ({ s with
        boss_alert_level := new_level
        last_boss_cooldown_check := current_time },
     previous_level - new_level)

/-- Embeds `ChillMCPState._maybe_raise_boss_alert` (src/main.py lines 167–184):
attempt to raise the boss alert level based on configured probability.
The uniform draw `random.randint(1, 100)` is passed in as `roll`; the source
only draws it on the path that compares it, so the modelled result on the
other paths does not depend on `roll`. -/
def _maybe_raise_boss_alert (s : ChillMCPState) (current_time : ℚ) (roll : ℤ) :
    ChillMCPState × Bool :=
  if s.max_boss_alert ≤ s.boss_alert_level then (s, true)
  else if s.boss_alertness = 0 then (s, false)
  else if roll ≤ s.boss_alertness then
    ({ s with
        boss_alert_level := min s.max_boss_alert (s.boss_alert_level + 1)
        last_boss_cooldown_check := current_time },
     true)
  else (s, false)

/-- Observable outcome of one `perform_break` call: the quantities the source
computes inside the critical section and reports in the response text. -/
structure BreakResult where
  stress_growth : ℤ
  cooldown_steps : ℤ
  relief_applied : ℤ
  boss_alert_triggered : Bool
  current_stress : ℤ
  current_boss : ℤ
  delay_required : Bool
  deriving Repr, DecidableEq

/-- Embeds the state-updating core of `ChillMCPState.perform_break`
(src/main.py lines 85–130): stress growth, boss cooldown, relief
application, boss alert trigger, and the `delay_required` flag computed
from the resulting boss alert level.  `relief` stands for
`random.randint(profile.min_relief, profile.max_relief)` and `roll` for the
trigger draw. -/
def perform_break (s : ChillMCPState) (now : ℚ) (relief roll : ℤ) :
    ChillMCPState × BreakResult :=
  let g := _apply_stress_growth s now
  let s1 := g.1
  let stress_growth := g.2
  let c := _apply_boss_cooldown s1 now
  let s2 := c.1
  let cooldown_steps := c.2
  let previous_stress := s2.stress_level
  let s3 := { s2 with stress_level := max 0 (s2.stress_level - relief) }
  let m := _maybe_raise_boss_alert s3 now roll
  let s4 := m.1
  let current_stress := s4.stress_level
  let current_boss := s4.boss_alert_level
  (s4,
   { stress_growth := stress_growth
     cooldown_steps := cooldown_steps
     relief_applied := previous_stress - current_stress
     boss_alert_triggered := m.2
     current_stress := current_stress
     current_boss := current_boss
     delay_required := decide (s4.max_boss_alert ≤ current_boss) })

/-- Iterate `perform_break` over a sequence of calls, each given by its
monotonic timestamp and the two random draws; keeps only the state. -/
def perform_break_seq (s : ChillMCPState) (calls : List (ℚ × ℤ × ℤ)) : ChillMCPState :=
  calls.foldl (fun st c => (perform_break st c.1 c.2.1 c.2.2).1) s

/-- The gauge range invariant of the spec: both gauges within their fixed
bounds (`STRESS_MAX = 100`, `ALERT_MAX = 5`). -/
def GaugeInv (s : ChillMCPState) : Prop :=
  0 ≤ s.stress_level ∧ s.stress_level ≤ 100 ∧
    0 ≤ s.boss_alert_level ∧ s.boss_alert_level ≤ 5

instance (s : ChillMCPState) : Decidable (GaugeInv s) := by
  unfold GaugeInv; infer_instance

/-- Embeds the validation in `parse_args` (src/main.py lines 49–54): a value
of `--boss_alertness` outside 0–100 or a non-positive
`--boss_alertness_cooldown` raises `SystemExit` with a human-readable
message (non-zero exit status, before the server starts); valid parameters
are returned unchanged. -/
def parse_args (boss_alertness boss_alertness_cooldown : ℤ) : Except String (ℤ × ℤ) :=
  if ¬ (0 ≤ boss_alertness ∧ boss_alertness ≤ 100) then
    Except.error "--boss_alertness must be within 0-100."
  else if boss_alertness_cooldown ≤ 0 then
    Except.error "--boss_alertness_cooldown must be greater than 0."
  else
    Except.ok (boss_alertness, boss_alertness_cooldown)

/-! ### Frame lemmas: which fields each helper leaves untouched -/

/-- Shorthand for the tick count `int(elapsed // interval)` computed by
`_apply_stress_growth`. -/
def growth_ticks (s : ChillMCPState) (now : ℚ) : ℤ :=
  ⌊(now - s.last_stress_update) / (s.stress_growth_interval : ℚ)⌋

/-- Shorthand for the step count `int(elapsed // cooldown)` computed by
`_apply_boss_cooldown`. -/
def cooldown_steps_count (s : ChillMCPState) (now : ℚ) : ℤ :=
  ⌊(now - s.last_boss_cooldown_check) / (s.boss_alertness_cooldown : ℚ)⌋

@[simp] theorem growth_boss_alertness (s : ChillMCPState) (t : ℚ) :
    ((_apply_stress_growth s t).1).boss_alertness = s.boss_alertness := by
  simp only [_apply_stress_growth]; split <;> rfl

@[simp] theorem growth_cooldown_cfg (s : ChillMCPState) (t : ℚ) :
    ((_apply_stress_growth s t).1).boss_alertness_cooldown = s.boss_alertness_cooldown := by
  simp only [_apply_stress_growth]; split <;> rfl

@[simp] theorem growth_alert_level (s : ChillMCPState) (t : ℚ) :
    ((_apply_stress_growth s t).1).boss_alert_level = s.boss_alert_level := by
  simp only [_apply_stress_growth]; split <;> rfl

@[simp] theorem growth_cooldown_anchor (s : ChillMCPState) (t : ℚ) :
    ((_apply_stress_growth s t).1).last_boss_cooldown_check = s.last_boss_cooldown_check := by
  simp only [_apply_stress_growth]; split <;> rfl

@[simp] theorem growth_interval_cfg (s : ChillMCPState) (t : ℚ) :
    ((_apply_stress_growth s t).1).stress_growth_interval = s.stress_growth_interval := by
  simp only [_apply_stress_growth]; split <;> rfl

@[simp] theorem growth_max_stress (s : ChillMCPState) (t : ℚ) :
    ((_apply_stress_growth s t).1).max_stress = s.max_stress := by
  simp only [_apply_stress_growth]; split <;> rfl

@[simp] theorem growth_max_boss_alert (s : ChillMCPState) (t : ℚ) :
    ((_apply_stress_growth s t).1).max_boss_alert = s.max_boss_alert := by
  simp only [_apply_stress_growth]; split <;> rfl

@[simp] theorem cooldown_boss_alertness (s : ChillMCPState) (t : ℚ) :
    ((_apply_boss_cooldown s t).1).boss_alertness = s.boss_alertness := by
  simp only [_apply_boss_cooldown]; split <;> [rfl; (split <;> rfl)]

@[simp] theorem cooldown_cooldown_cfg (s : ChillMCPState) (t : ℚ) :
    ((_apply_boss_cooldown s t).1).boss_alertness_cooldown = s.boss_alertness_cooldown := by
  simp only [_apply_boss_cooldown]; split <;> [rfl; (split <;> rfl)]

@[simp] theorem cooldown_stress_level (s : ChillMCPState) (t : ℚ) :
    ((_apply_boss_cooldown s t).1).stress_level = s.stress_level := by
  simp only [_apply_boss_cooldown]; split <;> [rfl; (split <;> rfl)]

@[simp] theorem cooldown_stress_anchor (s : ChillMCPState) (t : ℚ) :
    ((_apply_boss_cooldown s t).1).last_stress_update = s.last_stress_update := by
  simp only [_apply_boss_cooldown]; split <;> [rfl; (split <;> rfl)]

@[simp] theorem cooldown_interval_cfg (s : ChillMCPState) (t : ℚ) :
    ((_apply_boss_cooldown s t).1).stress_growth_interval = s.stress_growth_interval := by
  simp only [_apply_boss_cooldown]; split <;> [rfl; (split <;> rfl)]

@[simp] theorem cooldown_max_stress (s : ChillMCPState) (t : ℚ) :
    ((_apply_boss_cooldown s t).1).max_stress = s.max_stress := by
  simp only [_apply_boss_cooldown]; split <;> [rfl; (split <;> rfl)]

@[simp] theorem cooldown_max_boss_alert (s : ChillMCPState) (t : ℚ) :
    ((_apply_boss_cooldown s t).1).max_boss_alert = s.max_boss_alert := by
  simp only [_apply_boss_cooldown]; split <;> [rfl; (split <;> rfl)]

@[simp] theorem trigger_boss_alertness (s : ChillMCPState) (t : ℚ) (roll : ℤ) :
    ((_maybe_raise_boss_alert s t roll).1).boss_alertness = s.boss_alertness := by
  simp only [_maybe_raise_boss_alert]; split_ifs <;> rfl

@[simp] theorem trigger_cooldown_cfg (s : ChillMCPState) (t : ℚ) (roll : ℤ) :
    ((_maybe_raise_boss_alert s t roll).1).boss_alertness_cooldown = s.boss_alertness_cooldown := by
  simp only [_maybe_raise_boss_alert]; split_ifs <;> rfl

@[simp] theorem trigger_stress_level (s : ChillMCPState) (t : ℚ) (roll : ℤ) :
    ((_maybe_raise_boss_alert s t roll).1).stress_level = s.stress_level := by
  simp only [_maybe_raise_boss_alert]; split_ifs <;> rfl

@[simp] theorem trigger_stress_anchor (s : ChillMCPState) (t : ℚ) (roll : ℤ) :
    ((_maybe_raise_boss_alert s t roll).1).last_stress_update = s.last_stress_update := by
  simp only [_maybe_raise_boss_alert]; split_ifs <;> rfl

@[simp] theorem trigger_interval_cfg (s : ChillMCPState) (t : ℚ) (roll : ℤ) :
    ((_maybe_raise_boss_alert s t roll).1).stress_growth_interval = s.stress_growth_interval := by
  simp only [_maybe_raise_boss_alert]; split_ifs <;> rfl

@[simp] theorem trigger_max_stress (s : ChillMCPState) (t : ℚ) (roll : ℤ) :
    ((_maybe_raise_boss_alert s t roll).1).max_stress = s.max_stress := by
  simp only [_maybe_raise_boss_alert]; split_ifs <;> rfl

@[simp] theorem trigger_max_boss_alert (s : ChillMCPState) (t : ℚ) (roll : ℤ) :
    ((_maybe_raise_boss_alert s t roll).1).max_boss_alert = s.max_boss_alert := by
  simp only [_maybe_raise_boss_alert]; split_ifs <;> rfl

@[simp] theorem pb_boss_alertness (s : ChillMCPState) (now : ℚ) (relief roll : ℤ) :
    ((perform_break s now relief roll).1).boss_alertness = s.boss_alertness := by
  simp [perform_break]

@[simp] theorem pb_cooldown_cfg (s : ChillMCPState) (now : ℚ) (relief roll : ℤ) :
    ((perform_break s now relief roll).1).boss_alertness_cooldown = s.boss_alertness_cooldown := by
  simp [perform_break]

@[simp] theorem pb_interval_cfg (s : ChillMCPState) (now : ℚ) (relief roll : ℤ) :
    ((perform_break s now relief roll).1).stress_growth_interval = s.stress_growth_interval := by
  simp [perform_break]

@[simp] theorem pb_max_stress (s : ChillMCPState) (now : ℚ) (relief roll : ℤ) :
    ((perform_break s now relief roll).1).max_stress = s.max_stress := by
  simp [perform_break]

@[simp] theorem pb_max_boss_alert (s : ChillMCPState) (now : ℚ) (relief roll : ℤ) :
    ((perform_break s now relief roll).1).max_boss_alert = s.max_boss_alert := by
  simp [perform_break]

@[simp] theorem pb_stress_anchor (s : ChillMCPState) (now : ℚ) (relief roll : ℤ) :
    ((perform_break s now relief roll).1).last_stress_update
      = ((_apply_stress_growth s now).1).last_stress_update := by
  simp [perform_break]

/-! ### Characterization lemmas for each branch of the helpers -/

theorem growth_eq_of_nonpos (s : ChillMCPState) (t : ℚ) (h : growth_ticks s t ≤ 0) :
    _apply_stress_growth s t = (s, 0) := by
  simp only [_apply_stress_growth, growth_ticks] at *
  rw [if_pos h]

theorem growth_eq_of_pos (s : ChillMCPState) (t : ℚ) (h : 0 < growth_ticks s t) :
    _apply_stress_growth s t =
      ({ s with
          stress_level := min s.max_stress (s.stress_level + growth_ticks s t)
          last_stress_update :=
            s.last_stress_update + (growth_ticks s t : ℚ) * (s.stress_growth_interval : ℚ) },
       growth_ticks s t) := by
  simp only [_apply_stress_growth, growth_ticks] at *
  rw [if_neg (by omega)]

theorem cooldown_eq_of_zero (s : ChillMCPState) (t : ℚ) (h : s.boss_alert_level = 0) :
    _apply_boss_cooldown s t = ({ s with last_boss_cooldown_check := t }, 0) := by
  simp only [_apply_boss_cooldown]
  rw [if_pos h]

theorem cooldown_eq_of_nonpos (s : ChillMCPState) (t : ℚ) (h0 : s.boss_alert_level ≠ 0)
    (h : cooldown_steps_count s t ≤ 0) :
    _apply_boss_cooldown s t = (s, 0) := by
  simp only [_apply_boss_cooldown, cooldown_steps_count] at *
  rw [if_neg h0, if_pos h]

theorem cooldown_eq_of_pos (s : ChillMCPState) (t : ℚ) (h0 : s.boss_alert_level ≠ 0)
    (h : 0 < cooldown_steps_count s t) :
    _apply_boss_cooldown s t =
      ({ s with
          boss_alert_level := max 0 (s.boss_alert_level - cooldown_steps_count s t)
          last_boss_cooldown_check := t },
       s.boss_alert_level - max 0 (s.boss_alert_level - cooldown_steps_count s t)) := by
  simp only [_apply_boss_cooldown, cooldown_steps_count] at *
  rw [if_neg h0, if_neg (by omega)]

theorem trigger_eq_of_saturated (s : ChillMCPState) (t : ℚ) (roll : ℤ)
    (h : s.max_boss_alert ≤ s.boss_alert_level) :
    _maybe_raise_boss_alert s t roll = (s, true) := by
  simp only [_maybe_raise_boss_alert]
  rw [if_pos h]

theorem trigger_eq_of_alertness_zero (s : ChillMCPState) (t : ℚ) (roll : ℤ)
    (h : ¬ s.max_boss_alert ≤ s.boss_alert_level) (h0 : s.boss_alertness = 0) :
    _maybe_raise_boss_alert s t roll = (s, false) := by
  simp only [_maybe_raise_boss_alert]
  rw [if_neg h, if_pos h0]

theorem trigger_eq_of_hit (s : ChillMCPState) (t : ℚ) (roll : ℤ)
    (h : ¬ s.max_boss_alert ≤ s.boss_alert_level) (h0 : s.boss_alertness ≠ 0)
    (hr : roll ≤ s.boss_alertness) :
    _maybe_raise_boss_alert s t roll =
      ({ s with
          boss_alert_level := min s.max_boss_alert (s.boss_alert_level + 1)
          last_boss_cooldown_check := t },
       true) := by
  simp only [_maybe_raise_boss_alert]
  rw [if_neg h, if_neg h0, if_pos hr]

theorem trigger_eq_of_miss (s : ChillMCPState) (t : ℚ) (roll : ℤ)
    (h : ¬ s.max_boss_alert ≤ s.boss_alert_level) (h0 : s.boss_alertness ≠ 0)
    (hr : ¬ roll ≤ s.boss_alertness) :
    _maybe_raise_boss_alert s t roll = (s, false) := by
  simp only [_maybe_raise_boss_alert]
  rw [if_neg h, if_neg h0, if_neg hr]

theorem pb_stress_growth_eq (s : ChillMCPState) (now : ℚ) (relief roll : ℤ) :
    ((perform_break s now relief roll).2).stress_growth = (_apply_stress_growth s now).2 := rfl

theorem pb_cooldown_steps_eq (s : ChillMCPState) (now : ℚ) (relief roll : ℤ) :
    ((perform_break s now relief roll).2).cooldown_steps
      = (_apply_boss_cooldown (_apply_stress_growth s now).1 now).2 := rfl

/-! ### C1: gauge range invariant -/

/-- Single-call preservation of the gauge range invariant: one `perform_break`
with a non-negative relief draw keeps both gauges in range. -/
theorem perform_break_preserves_inv (s : ChillMCPState) (now : ℚ) (relief roll : ℤ)
    (hinv : GaugeInv s) (hms : s.max_stress = 100) (hmb : s.max_boss_alert = 5)
    (hrel : 0 ≤ relief) :
    GaugeInv (perform_break s now relief roll).1 := by
  obtain ⟨h1, h2, h3, h4⟩ := hinv
  simp only [perform_break, _apply_stress_growth, _apply_boss_cooldown,
    _maybe_raise_boss_alert, GaugeInv]
  split_ifs <;> simp_all <;> omega

/-- C1: for every sequence of `perform_break` calls and every interleaving of
elapsed time (arbitrary timestamps), after each call — i.e. after folding any
prefix of the call sequence — the state satisfies
`0 ≤ stress_level ≤ 100` and `0 ≤ boss_alert_level ≤ 5`, provided every
relief draw is non-negative (the source draws reliefs from non-negative
profile ranges). -/
theorem C1_gauge_range_invariant (s : ChillMCPState) (calls : List (ℚ × ℤ × ℤ))
    (hinv : GaugeInv s) (hms : s.max_stress = 100) (hmb : s.max_boss_alert = 5)
    (hrel : ∀ c ∈ calls, 0 ≤ c.2.1) :
    GaugeInv (perform_break_seq s calls) := by
  induction calls generalizing s with
  | nil => simpa [perform_break_seq] using hinv
  | cons c cs ih =>
      have hstep := perform_break_preserves_inv s c.1 c.2.1 c.2.2 hinv hms hmb
        (hrel c (List.mem_cons_self c cs))
      have hseq : perform_break_seq s (c :: cs) =
          perform_break_seq (perform_break s c.1 c.2.1 c.2.2).1 cs := rfl
      rw [hseq]
      exact ih _ hstep (by simp [hms]) (by simp [hmb])
        (fun d hd => hrel d (List.mem_cons_of_mem c hd))

/-- Witness for C1 at a concrete state and call sequence. -/
theorem C1_gauge_range_invariant_witness :
    GaugeInv (initState 50 300 0) ∧
    GaugeInv (perform_break_seq (initState 50 300 0) [(1, 10, 50), (70, 15, 80)]) :=
  ⟨by decide,
   C1_gauge_range_invariant (initState 50 300 0) [(1, 10, 50), (70, 15, 80)]
     (by decide) rfl rfl (by decide)⟩

/-! ### C2: saturation reporting -/

/-- Counterexample to C2 as stated: a call that begins with
`boss_alert_level = 5` (saturated on entry), in which no new trigger occurs
(`boss_alertness = 0`, so `boss_alert_triggered = false`), nevertheless
reports `delay_required = false`, because the cooldown step running inside
the same call (one full 300 s interval elapsed) lowers the alert to 4 before
`delay_required` is computed. -/
theorem C2_counterexample :
    ({ initState 0 300 0 with boss_alert_level := 5 } : ChillMCPState).boss_alert_level = 5 ∧
    (perform_break { initState 0 300 0 with boss_alert_level := 5 } 300 10 50).2.boss_alert_triggered
      = false ∧
    (perform_break { initState 0 300 0 with boss_alert_level := 5 } 300 10 50).1.boss_alert_level
      = 4 ∧
    (perform_break { initState 0 300 0 with boss_alert_level := 5 } 300 10 50).2.delay_required
      = false := by
  refine ⟨rfl, ?_, ?_, ?_⟩ <;>
    · simp [perform_break, _apply_stress_growth, _apply_boss_cooldown,
        _maybe_raise_boss_alert, initState]
      norm_num

/-- C2 (amended): for every call to `perform_break` that begins with
`boss_alert_level ≥ ALERT_MAX` (5) *and* in which the cooldown step applies
no reduction (fewer than one full cooldown interval elapsed since
`last_boss_cooldown_check`, i.e. the computed step count is ≤ 0), the call
reports `delay_required = true` even if no new trigger occurs, and leaves
the alert level unchanged. -/
theorem C2_saturated_report (s : ChillMCPState) (now : ℚ) (relief roll : ℤ)
    (hmb : s.max_boss_alert = 5) (h5 : 5 ≤ s.boss_alert_level)
    (hsteps : cooldown_steps_count s now ≤ 0) :
    (perform_break s now relief roll).2.delay_required = true ∧
    (perform_break s now relief roll).1.boss_alert_level = s.boss_alert_level := by
  simp only [perform_break, _apply_stress_growth, _apply_boss_cooldown,
    _maybe_raise_boss_alert, cooldown_steps_count] at *
  split_ifs <;> simp_all

/-- Witness for C2 (amended) at a concrete saturated state where only 100 s
of a 300 s cooldown interval have elapsed. -/
theorem C2_saturated_report_witness :
    ({ initState 0 300 0 with boss_alert_level := 5 } : ChillMCPState).max_boss_alert = 5 ∧
    5 ≤ ({ initState 0 300 0 with boss_alert_level := 5 } : ChillMCPState).boss_alert_level ∧
    cooldown_steps_count { initState 0 300 0 with boss_alert_level := 5 } 100 ≤ 0 ∧
    (perform_break { initState 0 300 0 with boss_alert_level := 5 } 100 10 50).2.delay_required
      = true :=
  ⟨rfl, by norm_num [initState],
   by norm_num [cooldown_steps_count, initState],
   (C2_saturated_report { initState 0 300 0 with boss_alert_level := 5 } 100 10 50
     rfl (by norm_num [initState]) (by norm_num [cooldown_steps_count, initState])).1⟩

/-! ### C3: cooldown anchor behavior -/

/-- Counterexample to C3 as stated: starting from `boss_alert_level = 2` with
the cooldown anchor at 0 and interval 300 s, a call at time 450 applies one
cooldown step and sets `last_boss_cooldown_check` to 450 — an advance of
450 s, which is *not* a whole multiple of the 300 s cooldown interval — while
the alert level stays positive (2 → 1).  The code re-anchors to "now", it
does not advance by whole interval multiples. -/
theorem C3_counterexample :
    ({ initState 0 300 0 with boss_alert_level := 2 } : ChillMCPState).boss_alert_level = 2 ∧
    ({ initState 0 300 0 with boss_alert_level := 2 } : ChillMCPState).last_boss_cooldown_check
      = 0 ∧
    (perform_break { initState 0 300 0 with boss_alert_level := 2 } 450 10 50).1.boss_alert_level
      = 1 ∧
    (perform_break { initState 0 300 0 with boss_alert_level := 2 } 450 10
        50).1.last_boss_cooldown_check = 450 ∧
    ¬ ((300 : ℤ) ∣ 450) := by
  refine ⟨rfl, rfl, ?_, ?_, by decide⟩ <;>
    · simp [perform_break, _apply_stress_growth, _apply_boss_cooldown,
        _maybe_raise_boss_alert, initState]
      norm_num

/-- C3 (amended): under a monotonic clock (`last_boss_cooldown_check ≤ now`
on entry), the cooldown anchor only advances forward and never past `now`;
every call either leaves it untouched or re-anchors it exactly to `now`
(a cooldown step or a fresh trigger re-anchors to `now` — not by whole
multiples of the cooldown interval); and whenever the call leaves
`boss_alert_level = 0`, the anchor tracks `now` exactly, so no cooldown
credit is banked while nothing needs cooling. -/
theorem C3_cooldown_anchor_behavior (s : ChillMCPState) (now : ℚ) (relief roll : ℤ)
    (hmono : s.last_boss_cooldown_check ≤ now) :
    s.last_boss_cooldown_check ≤ (perform_break s now relief roll).1.last_boss_cooldown_check ∧
    (perform_break s now relief roll).1.last_boss_cooldown_check ≤ now ∧
    ((perform_break s now relief roll).1.last_boss_cooldown_check = s.last_boss_cooldown_check ∨
      (perform_break s now relief roll).1.last_boss_cooldown_check = now) ∧
    ((perform_break s now relief roll).1.boss_alert_level = 0 →
      (perform_break s now relief roll).1.last_boss_cooldown_check = now) := by
  simp only [perform_break, _apply_stress_growth, _apply_boss_cooldown,
    _maybe_raise_boss_alert]
  split_ifs <;> simp_all

/-- Witness for C3 (amended) at a concrete state and time. -/
theorem C3_cooldown_anchor_behavior_witness :
    (initState 50 300 0).last_boss_cooldown_check ≤ 10 ∧
    ((initState 50 300 0).last_boss_cooldown_check
        ≤ (perform_break (initState 50 300 0) 10 5 50).1.last_boss_cooldown_check ∧
      (perform_break (initState 50 300 0) 10 5 50).1.last_boss_cooldown_check ≤ 10 ∧
      ((perform_break (initState 50 300 0) 10 5 50).1.last_boss_cooldown_check
          = (initState 50 300 0).last_boss_cooldown_check ∨
        (perform_break (initState 50 300 0) 10 5 50).1.last_boss_cooldown_check = 10) ∧
      ((perform_break (initState 50 300 0) 10 5 50).1.boss_alert_level = 0 →
        (perform_break (initState 50 300 0) 10 5 50).1.last_boss_cooldown_check = 10)) :=
  ⟨by norm_num [initState],
   C3_cooldown_anchor_behavior (initState 50 300 0) 10 5 50 (by norm_num [initState])⟩

/-! ### C4: stress growth accounting -/

/-- C4: stress growth in each call equals
`ticks = ⌊(now - last_stress_update) / 60⌋` (when positive, else 0), applied
as `stress = min(100, stress + ticks)` (here via `max_stress`), with the
anchor advanced by exactly `ticks * 60` seconds — never set to `now` — so
fractional leftover time carries forward: a call after an idle gap of
`T ≥ 60` reports `stress_growth = ⌊T / 60⌋`, and two consecutive gaps of
40 s yield exactly one growth tick across the two calls. -/
theorem C4_stress_growth_accounting (s : ChillMCPState) (now : ℚ)
    (relief roll relief2 roll2 : ℤ) (hint : s.stress_growth_interval = 60) :
    (0 < growth_ticks s now →
      (perform_break s now relief roll).2.stress_growth = growth_ticks s now ∧
      (perform_break s now relief roll).1.last_stress_update
        = s.last_stress_update + (growth_ticks s now : ℚ) * 60 ∧
      (_apply_stress_growth s now).1.stress_level
        = min s.max_stress (s.stress_level + growth_ticks s now)) ∧
    (growth_ticks s now ≤ 0 →
      (perform_break s now relief roll).2.stress_growth = 0 ∧
      (perform_break s now relief roll).1.last_stress_update = s.last_stress_update) ∧
    (∀ T : ℚ, 60 ≤ T →
      (perform_break s (s.last_stress_update + T) relief roll).2.stress_growth = ⌊T / 60⌋) ∧
    ((perform_break s (s.last_stress_update + 40) relief roll).2.stress_growth = 0 ∧
      (perform_break (perform_break s (s.last_stress_update + 40) relief roll).1
          (s.last_stress_update + 80) relief2 roll2).2.stress_growth = 1) := by
  have hticks40 : growth_ticks s (s.last_stress_update + 40) = 0 := by
    simp [growth_ticks, hint]
    norm_num
  refine ⟨?_, ?_, ?_, ?_, ?_⟩
  · intro h
    refine ⟨?_, ?_, ?_⟩
    · rw [pb_stress_growth_eq, growth_eq_of_pos s now h]
    · rw [pb_stress_anchor, growth_eq_of_pos s now h]
      simp [hint]
    · rw [growth_eq_of_pos s now h]
  · intro h
    constructor
    · rw [pb_stress_growth_eq, growth_eq_of_nonpos s now h]
    · rw [pb_stress_anchor, growth_eq_of_nonpos s now h]
  · intro T hT
    have hticks : growth_ticks s (s.last_stress_update + T) = ⌊T / 60⌋ := by
      simp [growth_ticks, hint]
    have hpos : 0 < growth_ticks s (s.last_stress_update + T) := by
      rw [hticks]
      have h1 : (1 : ℚ) ≤ T / 60 := by
        rw [one_le_div (by norm_num : (0:ℚ) < 60)]
        exact hT
      exact_mod_cast Int.le_floor.mpr (by exact_mod_cast h1)
    rw [pb_stress_growth_eq, growth_eq_of_pos _ _ hpos, hticks]
  · rw [pb_stress_growth_eq, growth_eq_of_nonpos _ _ (le_of_eq hticks40)]
  · have hanchor2 : (_apply_stress_growth s (s.last_stress_update + 40)).1.last_stress_update
        = s.last_stress_update := by
      rw [growth_eq_of_nonpos _ _ (le_of_eq hticks40)]
    have hticks80 : growth_ticks (perform_break s (s.last_stress_update + 40) relief roll).1
        (s.last_stress_update + 80) = 1 := by
      simp [growth_ticks, hanchor2, hint]
      norm_num
    rw [pb_stress_growth_eq, growth_eq_of_pos _ _ (by rw [hticks80]; norm_num), hticks80]

/-- Witness for C4: the two-40-second-gaps scenario at a concrete state. -/
theorem C4_stress_growth_accounting_witness :
    (initState 50 300 0).stress_growth_interval = 60 ∧
    (perform_break (initState 50 300 0) ((initState 50 300 0).last_stress_update + 40) 5
        50).2.stress_growth = 0 ∧
    (perform_break
        (perform_break (initState 50 300 0) ((initState 50 300 0).last_stress_update + 40) 5 50).1
        ((initState 50 300 0).last_stress_update + 80) 6 60).2.stress_growth = 1 :=
  ⟨rfl,
   (C4_stress_growth_accounting (initState 50 300 0) 0 5 50 6 60 rfl).2.2.2.1,
   (C4_stress_growth_accounting (initState 50 300 0) 0 5 50 6 60 rfl).2.2.2.2⟩

/-! ### C5: cooldown freeze at zero -/

/-- Trigger step keeps an already-current cooldown anchor at `now`. -/
theorem trigger_anchor_fixed (s : ChillMCPState) (t : ℚ) (roll : ℤ)
    (h : s.last_boss_cooldown_check = t) :
    (_maybe_raise_boss_alert s t roll).1.last_boss_cooldown_check = t := by
  simp only [_maybe_raise_boss_alert]
  split_ifs <;> simp_all

/-- C5: every call entered with `boss_alert_level = 0` — no matter how much
time has elapsed since the previous call — reports `cooldown_steps = 0` and
re-anchors `last_boss_cooldown_check` to `now`: no cooldown credit is banked
while nothing needs cooling. -/
theorem C5_cooldown_freeze_at_zero (s : ChillMCPState) (now : ℚ) (relief roll : ℤ)
    (h0 : s.boss_alert_level = 0) :
    (perform_break s now relief roll).2.cooldown_steps = 0 ∧
    (perform_break s now relief roll).1.last_boss_cooldown_check = now := by
  have h1 : (_apply_stress_growth s now).1.boss_alert_level = 0 := by simp [h0]
  have h2 := cooldown_eq_of_zero (_apply_stress_growth s now).1 now h1
  constructor
  · rw [pb_cooldown_steps_eq, h2]
  · simp only [perform_break]
    rw [h2]
    exact trigger_anchor_fixed _ _ _ (by simp)

/-- Witness for C5 after a very long idle gap at a concrete state. -/
theorem C5_cooldown_freeze_at_zero_witness :
    (initState 50 300 0).boss_alert_level = 0 ∧
    (perform_break (initState 50 300 0) 100000 10 50).2.cooldown_steps = 0 ∧
    (perform_break (initState 50 300 0) 100000 10 50).1.last_boss_cooldown_check = 100000 :=
  ⟨rfl, (C5_cooldown_freeze_at_zero (initState 50 300 0) 100000 10 50 rfl).1,
   (C5_cooldown_freeze_at_zero (initState 50 300 0) 100000 10 50 rfl).2⟩

/-! ### C6: six immediate calls at trigger probability 100 -/

/-- One immediate call (`last_boss_cooldown_check = now`) at alertness 100
with an in-range roll raises the alert by exactly one and re-anchors the
cooldown clock to `now`. -/
theorem alert_step_up (s : ChillMCPState) (now : ℚ) (relief roll : ℤ)
    (hP : s.boss_alertness = 100) (hmb : s.max_boss_alert = 5)
    (ha0 : 0 ≤ s.boss_alert_level) (ha5 : s.boss_alert_level < 5)
    (hanchor : s.last_boss_cooldown_check = now) (hroll : roll ≤ 100) :
    (perform_break s now relief roll).1.boss_alert_level = s.boss_alert_level + 1 ∧
    (perform_break s now relief roll).1.last_boss_cooldown_check = now := by
  simp only [perform_break, _apply_stress_growth, _apply_boss_cooldown,
    _maybe_raise_boss_alert]
  split_ifs <;> simp_all <;> omega

/-- One immediate call entered at the alert cap leaves the level at 5. -/
theorem alert_step_max (s : ChillMCPState) (now : ℚ) (relief roll : ℤ)
    (hmb : s.max_boss_alert = 5) (ha : s.boss_alert_level = 5)
    (hanchor : s.last_boss_cooldown_check = now) :
    (perform_break s now relief roll).1.boss_alert_level = 5 ∧
    (perform_break s now relief roll).1.last_boss_cooldown_check = now := by
  simp only [perform_break, _apply_stress_growth, _apply_boss_cooldown,
    _maybe_raise_boss_alert]
  split_ifs <;> simp_all

/-- C6: with trigger probability 100 and cooldown interval 300 s, six
consecutive immediate calls (all at the same instant `now`, starting from
`boss_alert_level = 0` with the cooldown anchor current) raise the alert by
exactly 1 per call — reaching exactly 5 at the 5th call and staying 5 on the
6th, with the cooldown clock re-anchored to `now` — for any reliefs and any
rolls in the drawn range `[1, 100]`. -/
theorem C6_p100_six_calls (s : ChillMCPState) (now : ℚ)
    (v1 v2 v3 v4 v5 v6 r1 r2 r3 r4 r5 r6 : ℤ)
    (hP : s.boss_alertness = 100) ( _hcool : s.boss_alertness_cooldown = 300)
    (hmb : s.max_boss_alert = 5) (ha : s.boss_alert_level = 0)
    (hanchor : s.last_boss_cooldown_check = now)
    (hr1 : 1 ≤ r1 ∧ r1 ≤ 100) (hr2 : 1 ≤ r2 ∧ r2 ≤ 100) (hr3 : 1 ≤ r3 ∧ r3 ≤ 100)
    (hr4 : 1 ≤ r4 ∧ r4 ≤ 100) (hr5 : 1 ≤ r5 ∧ r5 ≤ 100) ( _hr6 : 1 ≤ r6 ∧ r6 ≤ 100) :
    (perform_break_seq s [(now, v1, r1)]).boss_alert_level = 1 ∧
    (perform_break_seq s [(now, v1, r1), (now, v2, r2)]).boss_alert_level = 2 ∧
    (perform_break_seq s [(now, v1, r1), (now, v2, r2), (now, v3, r3)]).boss_alert_level = 3 ∧
    (perform_break_seq s
        [(now, v1, r1), (now, v2, r2), (now, v3, r3), (now, v4, r4)]).boss_alert_level = 4 ∧
    (perform_break_seq s
        [(now, v1, r1), (now, v2, r2), (now, v3, r3), (now, v4, r4),
          (now, v5, r5)]).boss_alert_level = 5 ∧
    (perform_break_seq s
        [(now, v1, r1), (now, v2, r2), (now, v3, r3), (now, v4, r4), (now, v5, r5),
          (now, v6, r6)]).boss_alert_level = 5 ∧
    (perform_break_seq s
        [(now, v1, r1), (now, v2, r2), (now, v3, r3), (now, v4, r4), (now, v5, r5),
          (now, v6, r6)]).last_boss_cooldown_check = now := by
  set t1 := (perform_break s now v1 r1).1 with ht1
  set t2 := (perform_break t1 now v2 r2).1 with ht2
  set t3 := (perform_break t2 now v3 r3).1 with ht3
  set t4 := (perform_break t3 now v4 r4).1 with ht4
  set t5 := (perform_break t4 now v5 r5).1 with ht5
  set t6 := (perform_break t5 now v6 r6).1 with ht6
  have e1 := alert_step_up s now v1 r1 hP hmb (by omega) (by omega) hanchor hr1.2
  rw [← ht1] at e1
  have f1P : t1.boss_alertness = 100 := by rw [ht1]; simp [hP]
  have f1m : t1.max_boss_alert = 5 := by rw [ht1]; simp [hmb]
  have e2 := alert_step_up t1 now v2 r2 f1P f1m (by omega) (by omega) e1.2 hr2.2
  rw [← ht2] at e2
  have f2P : t2.boss_alertness = 100 := by rw [ht2]; simp [f1P]
  have f2m : t2.max_boss_alert = 5 := by rw [ht2]; simp [f1m]
  have e3 := alert_step_up t2 now v3 r3 f2P f2m (by omega) (by omega) e2.2 hr3.2
  rw [← ht3] at e3
  have f3P : t3.boss_alertness = 100 := by rw [ht3]; simp [f2P]
  have f3m : t3.max_boss_alert = 5 := by rw [ht3]; simp [f2m]
  have e4 := alert_step_up t3 now v4 r4 f3P f3m (by omega) (by omega) e3.2 hr4.2
  rw [← ht4] at e4
  have f4P : t4.boss_alertness = 100 := by rw [ht4]; simp [f3P]
  have f4m : t4.max_boss_alert = 5 := by rw [ht4]; simp [f3m]
  have e5 := alert_step_up t4 now v5 r5 f4P f4m (by omega) (by omega) e4.2 hr5.2
  rw [← ht5] at e5
  have f5m : t5.max_boss_alert = 5 := by rw [ht5]; simp [f4m]
  have e6 := alert_step_max t5 now v6 r6 f5m (by omega) e5.2
  rw [← ht6] at e6
  refine ⟨?_, ?_, ?_, ?_, ?_, ?_, ?_⟩
  · show t1.boss_alert_level = 1
    omega
  · show t2.boss_alert_level = 2
    omega
  · show t3.boss_alert_level = 3
    omega
  · show t4.boss_alert_level = 4
    omega
  · show t5.boss_alert_level = 5
    omega
  · show t6.boss_alert_level = 5
    omega
  · show t6.last_boss_cooldown_check = now
    exact e6.2

/-- Witness for C6 at the startup state with alertness 100, all rolls 50. -/
theorem C6_p100_six_calls_witness :
    (initState 100 300 0).boss_alert_level = 0 ∧
    (perform_break_seq (initState 100 300 0) [(0, 10, 50)]).boss_alert_level = 1 ∧
    (perform_break_seq (initState 100 300 0)
        [(0, 10, 50), (0, 10, 50), (0, 10, 50), (0, 10, 50), (0, 10, 50)]).boss_alert_level
      = 5 ∧
    (perform_break_seq (initState 100 300 0)
        [(0, 10, 50), (0, 10, 50), (0, 10, 50), (0, 10, 50), (0, 10, 50),
          (0, 10, 50)]).boss_alert_level = 5 :=
  ⟨rfl,
   (C6_p100_six_calls (initState 100 300 0) 0 10 10 10 10 10 10 50 50 50 50 50 50
     rfl rfl rfl rfl rfl (by decide) (by decide) (by decide) (by decide) (by decide)
     (by decide)).1,
   (C6_p100_six_calls (initState 100 300 0) 0 10 10 10 10 10 10 50 50 50 50 50 50
     rfl rfl rfl rfl rfl (by decide) (by decide) (by decide) (by decide) (by decide)
     (by decide)).2.2.2.2.1,
   (C6_p100_six_calls (initState 100 300 0) 0 10 10 10 10 10 10 50 50 50 50 50 50
     rfl rfl rfl rfl rfl (by decide) (by decide) (by decide) (by decide) (by decide)
     (by decide)).2.2.2.2.2.1⟩

/-! ### C7: single call at trigger probability 0 -/

/-- C7: with trigger probability 0, initial stress 60 and alert 0, a single
immediate call whose relief draw lies in the `take_a_break` range `[12, 28]`
never triggers the alert: the alert stays 0, `delay_required` is false, and
the stress drops by exactly the drawn relief to a value in `[32, 48]`. -/
theorem C7_p0_single_call (s : ChillMCPState) (now : ℚ) (relief roll : ℤ)
    (hP : s.boss_alertness = 0) ( _hcool : s.boss_alertness_cooldown = 300)
    (hst : s.stress_level = 60) (ha : s.boss_alert_level = 0)
    (hmb : s.max_boss_alert = 5) (hstr : s.last_stress_update = now)
    (hrel1 : take_a_break.min_relief ≤ relief) (hrel2 : relief ≤ take_a_break.max_relief) :
    (perform_break s now relief roll).1.boss_alert_level = 0 ∧
    (perform_break s now relief roll).2.boss_alert_triggered = false ∧
    (perform_break s now relief roll).2.delay_required = false ∧
    (perform_break s now relief roll).1.stress_level = 60 - relief ∧
    32 ≤ (perform_break s now relief roll).1.stress_level ∧
    (perform_break s now relief roll).1.stress_level ≤ 48 := by
  simp only [take_a_break] at hrel1 hrel2
  simp only [perform_break, _apply_stress_growth, _apply_boss_cooldown,
    _maybe_raise_boss_alert]
  split_ifs <;> simp_all
  omega

/-- Witness for C7 at the startup state with alertness 0 and relief 20. -/
theorem C7_p0_single_call_witness :
    (initState 0 300 0).boss_alertness = 0 ∧
    (perform_break (initState 0 300 0) 0 20 50).1.boss_alert_level = 0 ∧
    (perform_break (initState 0 300 0) 0 20 50).2.delay_required = false ∧
    (perform_break (initState 0 300 0) 0 20 50).1.stress_level = 40 :=
  ⟨rfl,
   (C7_p0_single_call (initState 0 300 0) 0 20 50 rfl rfl rfl rfl rfl rfl
     (by decide) (by decide)).1,
   (C7_p0_single_call (initState 0 300 0) 0 20 50 rfl rfl rfl rfl rfl rfl
     (by decide) (by decide)).2.2.1,
   (C7_p0_single_call (initState 0 300 0) 0 20 50 rfl rfl rfl rfl rfl rfl
     (by decide) (by decide)).2.2.2.1⟩

/-! ### C9: startup parameter validation -/

/-- C9: startup validation of the two external parameters — an alert
probability outside `[0, 100]` or a cooldown interval `≤ 0` aborts with the
corresponding human-readable message (a `SystemExit`, i.e. non-zero exit
status, raised in `parse_args` before the server starts serving); valid
parameters are accepted unchanged. -/
theorem C9_parse_args_validation (a c : ℤ) :
    (¬ (0 ≤ a ∧ a ≤ 100) →
      parse_args a c = Except.error "--boss_alertness must be within 0-100.") ∧
    ((0 ≤ a ∧ a ≤ 100) → c ≤ 0 →
      parse_args a c = Except.error "--boss_alertness_cooldown must be greater than 0.") ∧
    ((0 ≤ a ∧ a ≤ 100) → 0 < c → parse_args a c = Except.ok (a, c)) := by
  unfold parse_args
  refine ⟨fun h => ?_, fun h hc => ?_, fun h hc => ?_⟩
  · rw [if_pos h]
  · rw [if_neg (not_not_intro h), if_pos hc]
  · rw [if_neg (not_not_intro h), if_neg (by omega)]

/-- Witness for C9 on one invalid probability, one invalid cooldown, and one
valid pair. -/
theorem C9_parse_args_validation_witness :
    parse_args 150 300 = Except.error "--boss_alertness must be within 0-100." ∧
    parse_args 50 0 = Except.error "--boss_alertness_cooldown must be greater than 0." ∧
    parse_args 50 300 = Except.ok (50, 300) :=
  ⟨(C9_parse_args_validation 150 300).1 (by decide),
   (C9_parse_args_validation 50 0).2.1 (by decide) (by decide),
   (C9_parse_args_validation 50 300).2.2 (by decide) (by decide)⟩

/-! ### C10: saturated trigger step is a pure no-op report -/

/-- C10: when the trigger step runs with `boss_alert_level ≥ max_boss_alert`,
it reports a trigger without consulting the random roll (the result is the
same for any two rolls) and returns the state exactly unchanged — in
particular both `boss_alert_level` and `last_boss_cooldown_check` are kept,
so a saturated call never resets the cooldown clock and elapsed-time
cooldown recovery keeps making progress during saturation. -/
theorem C10_saturated_trigger_frame (s : ChillMCPState) (now : ℚ) (roll roll2 : ℤ)
    (hsat : s.max_boss_alert ≤ s.boss_alert_level) :
    _maybe_raise_boss_alert s now roll = (s, true) ∧
    _maybe_raise_boss_alert s now roll = _maybe_raise_boss_alert s now roll2 ∧
    (_maybe_raise_boss_alert s now roll).1.boss_alert_level = s.boss_alert_level ∧
    (_maybe_raise_boss_alert s now roll).1.last_boss_cooldown_check
      = s.last_boss_cooldown_check := by
  have h1 := trigger_eq_of_saturated s now roll hsat
  have h2 := trigger_eq_of_saturated s now roll2 hsat
  exact ⟨h1, h1.trans h2.symm, by rw [h1], by rw [h1]⟩

/-- Witness for C10 at a concrete saturated state and two different rolls. -/
theorem C10_saturated_trigger_frame_witness :
    ({ initState 50 300 0 with boss_alert_level := 5 } : ChillMCPState).max_boss_alert
      ≤ ({ initState 50 300 0 with boss_alert_level := 5 } : ChillMCPState).boss_alert_level ∧
    _maybe_raise_boss_alert { initState 50 300 0 with boss_alert_level := 5 } 7 1
      = ({ initState 50 300 0 with boss_alert_level := 5 }, true) ∧
    _maybe_raise_boss_alert { initState 50 300 0 with boss_alert_level := 5 } 7 1
      = _maybe_raise_boss_alert { initState 50 300 0 with boss_alert_level := 5 } 7 100 :=
  ⟨by decide,
   (C10_saturated_trigger_frame { initState 50 300 0 with boss_alert_level := 5 } 7 1 100
     (by decide)).1,
   (C10_saturated_trigger_frame { initState 50 300 0 with boss_alert_level := 5 } 7 1 100
     (by decide)).2.1⟩
